import Mathlib

set_option maxRecDepth 10000

/-!
Shallow embedding of the anonymous real-time messaging core of the OvaCare
backend (`backend/app.js`, Mongoose model `models/Message.js`) and of the
frontend socket consumer (`SocketContext.tsx`), together with theorems
settling the frozen claims about the natural-language specification.

Conventions of the embedding:
* Mongo ObjectId message ids are modelled as `Nat` (opaque, unique, ordered).
* User identities (`userId`, JWT `decoded.userId`) are modelled as `String`.
* Timestamps (`Date.now`, the `timestamp` field) are modelled as `Nat`
  (milliseconds since the epoch).
* JavaScript string length (`content.length`, UTF-16 code units) is modelled
  by `String.length`; JavaScript `String.prototype.trim` is modelled by
  `jsTrim` below. The two agree on every input considered in the theorems.
* The JS `Map` `connectedUsers` is modelled as an association list with the
  `Map.set` / `Map.delete` / `Map.forEach` semantics spelled out explicitly
  (`mapSet`, `mapDelete`; `forEach` is a `List.map` over entries in order).
-/

namespace OvaCare

/-- Stored chat message, mirroring the Mongoose schema in `models/Message.js`:
`content`, `userId` (ref to the registered user), `username` (the author's real
name, captured for moderation), `isAnonymous` (default true), `timestamp`
(default `Date.now`), `isDeleted` (default false), plus the Mongo `_id`. -/
structure StoredMessage where
  id : Nat
  content : String
  userId : String
  username : String
  isAnonymous : Bool
  timestamp : Nat
  isDeleted : Bool
  deriving Repr, DecidableEq

/-- Wire representation produced by `anonymizeMessage` in `backend/app.js`:
the object literal has exactly the fields `_id`, `content`, `username`,
`timestamp`, `isAnonymous`, `isOwnMessage` — `userId` and the real `username`
are excluded from the client response. -/
structure WireMessage where
  id : Nat
  content : String
  username : String
  timestamp : Nat
  isAnonymous : Bool
  isOwnMessage : Bool
  deriving Repr, DecidableEq

/-- Embedding of `anonymizeMessage(message, currentUserId = null)` from
`backend/app.js`:

`{ _id: message._id, content: message.content, username: 'Anonymous',
   timestamp: message.timestamp, isAnonymous: true,
   isOwnMessage: currentUserId ? message.userId.toString() === currentUserId.toString() : false }`

The viewer is `Option String`: `none` models the `null` default (falsy, so
`isOwnMessage` is `false`); `some u` models a present user id, in which case
`isOwnMessage` is the string equality of the author id with the viewer id. -/
def anonymizeMessage (message : StoredMessage) (currentUserId : Option String) : WireMessage :=
  { id := message.id
    content := message.content
    username := "Anonymous"
    timestamp := message.timestamp
    isAnonymous := true
    isOwnMessage := match currentUserId with
      | some u => message.userId == u
      | none => false }

/-- Characters removed by JavaScript `String.prototype.trim` that are relevant
here (ASCII whitespace; JS additionally trims Unicode space characters, which
never occur in the inputs considered). -/
def jsWhitespace (c : Char) : Bool :=
  c == ' ' || c == '\t' || c == '\n' || c == '\r' || c == '\x0b' || c == '\x0c'

/-- Embedding of JavaScript `content.trim()`: leading and trailing whitespace
removed. -/
def jsTrim (s : String) : String :=
  String.mk (((s.data.dropWhile jsWhitespace).reverse.dropWhile jsWhitespace).reverse)

/-- Shared content validation of the realtime handler `socket.on('send_message')`
and of `POST /api/chat/send` in `backend/app.js` (the two code paths are
textually identical):

`if (!content || content.trim().length === 0) -> 'Message cannot be empty'`
`if (content.length > 500) -> 'Message too long (max 500 characters)'`

With `content` a string, `!content` is true exactly for the empty string. The
length check is on the UNTRIMMED content. Returns the error message emitted to
the sender, or `none` when the content is accepted. -/
def validateContent (content : String) : Option String :=
  if content == "" || (jsTrim content).length == 0 then
    some "Message cannot be empty"
  else if content.length > 500 then
    some "Message too long (max 500 characters)"
  else
    none

/-- Value stored in the `connectedUsers` map per user id:
`{ socketId: socket.id, name: user.name, email: user.email }`. -/
structure UserInfo where
  socketId : String
  name : String
  email : String
  deriving Repr, DecidableEq

/-- The JS `Map` `connectedUsers`, keyed by the authenticated user id. Modelled
as an association list in insertion order (JS `Map` iterates in insertion
order); `mapSet` and `mapDelete` below give it `Map.set` / `Map.delete`
semantics, so keys are unique whenever the map is built from those operations. -/
abbrev Presence := List (String × UserInfo)

/-- JS `Map.prototype.set`: replace the value in place if the key is present,
otherwise append the new entry. -/
def mapSet (m : Presence) (k : String) (v : UserInfo) : Presence :=
  if m.any (fun e => e.1 == k) then
    m.map (fun e => if e.1 == k then (k, v) else e)
  else
    m ++ [(k, v)]

/-- JS `Map.prototype.delete`: remove the entry with the given key. -/
def mapDelete (m : Presence) (k : String) : Presence :=
  m.filter (fun e => e.1 != k)

/-- Outbound effect of a handler: a socket.io emit to one socket
(`io.to(socketId).emit(event, payload)`), an emit of a message list
(`socket.emit('recent_messages', ...)`), an unconditional broadcast to every
connected socket (`io.emit(event, payload)`), or an error emit to one socket
(`socket.emit('error', { message })`). -/
inductive Delivery where
  | toSocket (socketId : String) (event : String) (payload : WireMessage)
  | toSocketList (socketId : String) (event : String) (payload : List WireMessage)
  | broadcast (event : String) (payload : WireMessage)
  | errToSocket (socketId : String) (message : String)
  deriving Repr, DecidableEq

/-- Construction `new Message({ content: content.trim(), userId, username,
isAnonymous: true })` followed by `save()`: the schema supplies the defaults
`timestamp: Date.now` (the `now` argument) and `isDeleted: false`, and Mongo
assigns the fresh `_id` (the `newId` argument). -/
def mkMessage (content : String) (userId username : String) (newId now : Nat) : StoredMessage :=
  { id := newId
    content := jsTrim content
    userId := userId
    username := username
    isAnonymous := true
    timestamp := now
    isDeleted := false }

/-- Result of one inbound `send_message` event: the message store after the
handler, the emits it performed, and the error emitted back to the sender (if
any). -/
structure SendOutcome where
  store : List StoredMessage
  deliveries : List Delivery
  errorToSender : Option String
  deriving Repr, DecidableEq

/-- Embedding of the realtime handler `socket.on('send_message', ...)` in
`backend/app.js`: validate; on failure emit the error to the sender and stop
(no persistence, no broadcast); on success save the message, then
`connectedUsers.forEach((userInfo, userId) => io.to(userInfo.socketId).emit('new_message', anonymizeMessage(message, userId)))`,
then one fallback `io.emit('new_message', anonymizeMessage(message, null))`. -/
def handleSendMessage (presence : Presence) (senderId senderName : String)
    (store : List StoredMessage) (newId now : Nat) (content : String) : SendOutcome :=
  match validateContent content with
  | some err => { store := store, deliveries := [], errorToSender := some err }
  | none =>
    let message := mkMessage content senderId senderName newId now
    let targeted := presence.map (fun e =>
      Delivery.toSocket e.2.socketId "new_message" (anonymizeMessage message (some e.1)))
    { store := store ++ [message]
      deliveries := targeted ++ [Delivery.broadcast "new_message" (anonymizeMessage message none)]
      errorToSender := none }

/-- HTTP response of `POST /api/chat/send`: `res.json({success: true, message})`,
a 400 validation error, or the 500 produced by the catch block. -/
inductive RestResponse where
  | ok (message : WireMessage)
  | badRequest (error : String)
  | serverError (error : String)
  deriving Repr, DecidableEq

/-- Result of one `POST /api/chat/send` request: store after the handler, the
emits performed, and the HTTP response. -/
structure RestOutcome where
  store : List StoredMessage
  deliveries : List Delivery
  response : RestResponse
  deriving Repr, DecidableEq

/-- Embedding of `POST /api/chat/send` in `backend/app.js`. The body runs
inside `try { ... } catch { res.status(500).json({ error: 'Failed to send message' }) }`:
validate (400 on failure, no side effects); resolve the author's name (the
`userName` argument models a successful `User.findById(...).select('name')`);
create and save the message; run the same per-entry `connectedUsers.forEach`
fan-out as the realtime path (this REST path performs no fallback `io.emit`);
then execute `res.json({ success: true, message: messageData })`. The
identifier `messageData` is declared with `const` inside the `forEach`
arrow-function callback, so by JavaScript block scoping it is unbound at the
`res.json` statement: evaluating it throws a `ReferenceError`, which the
enclosing catch turns into the 500 response — after the save and the fan-out
have already happened. -/
def restSend (presence : Presence) (userId userName : String)
    (store : List StoredMessage) (newId now : Nat) (content : String) : RestOutcome :=
  match validateContent content with
  | some err =>
    { store := store, deliveries := [], response := RestResponse.badRequest err }
  | none =>
    let message := mkMessage content userId userName newId now
    let targeted := presence.map (fun e =>
      Delivery.toSocket e.2.socketId "new_message" (anonymizeMessage message (some e.1)))
    { store := store ++ [message]
      deliveries := targeted
      response := RestResponse.serverError "Failed to send message" }

/-- Adjacent-pairs ordering: the list is most-recent-first by `timestamp`. -/
def tsSortedDesc (l : List StoredMessage) : Prop :=
  l.Chain' (fun a b => b.timestamp ≤ a.timestamp)

/-- Embedding of
`Message.find({ isDeleted: false }).sort({ timestamp: -1 }).limit(limit).skip(skip)`
(used by `GET /api/chat/messages`; the handshake snapshot uses the same query
with limit 50 and no skip). MongoDB sorts by the `timestamp` field only and
does not specify the relative order of documents with equal timestamps, so the
query is a relation: `result` is a possible outcome iff it is obtained by
dropping `skip` and taking `limit` from some timestamp-descending permutation
of the non-deleted messages. (Mongoose applies `skip` before `limit`
regardless of the chaining order.) -/
def RecentResult (store : List StoredMessage) (limit skip : Nat)
    (result : List StoredMessage) : Prop :=
  ∃ sorted : List StoredMessage,
    sorted.Perm (store.filter (fun m => !m.isDeleted)) ∧
    tsSortedDesc sorted ∧
    result = (sorted.drop skip).take limit

/-- Body of `GET /api/chat/messages` after the query: anonymize each fetched
message against the requesting identity, reverse for oldest-first display, and
report `hasMore` as `messages.length === limit`. -/
def getMessagesResponse (requesterId : String) (limit : Nat)
    (result : List StoredMessage) : List WireMessage × Bool :=
  ((result.map (fun m => anonymizeMessage m (some requesterId))).reverse,
   result.length == limit)

/-- Response of `GET /api/chat/users-online`. -/
structure OnlineCountResponse where
  count : Nat
  users : List String
  deriving Repr, DecidableEq

/-- An established socket.io connection: `socket.userId` set by the auth
middleware, `socket.userName` set in the connection handler when the
`User.findById` lookup succeeded (otherwise it stays undefined), and the
socket id. -/
structure Conn where
  userId : String
  userName : Option String
  socketId : String
  deriving Repr, DecidableEq

/-- Server state: the `connectedUsers` presence map, the durable message
store, and the set of established (authenticated) socket connections. -/
structure SystemState where
  presence : Presence
  store : List StoredMessage
  conns : List Conn
  deriving Repr, DecidableEq

/-- Inbound events at the socket layer. `connect` carries the handshake
credential (`socket.handshake.auth.token`, possibly absent) and the list the
recent-history DB query returned for the snapshot; `sendMsg` carries the fresh
Mongo id and the clock value used for the message; events are tagged by socket
id. -/
inductive SockEvent where
  | connect (token : Option String) (socketId : String) (dbRecents : List StoredMessage)
  | sendMsg (socketId : String) (content : String) (newId now : Nat)
  | disconnect (socketId : String)
  deriving Repr, DecidableEq

/-- Embedding of the socket lifecycle in `backend/app.js`.

`connect`: the middleware `authenticateSocket` rejects a missing token and a
token that fails `jwt.verify` with `next(new Error('Authentication error'))`,
which refuses the connection before `io.on('connection')` runs: no state
change, no emits, no established connection. On success the connection handler
looks the user up; if `User.findById` fails, the catch logs and neither sets
`socket.userName` nor adds a presence entry (the socket stays connected). On a
successful lookup it sets `connectedUsers.set(userId, {socketId, name, email})`
and emits the anonymized, reversed recent-history snapshot to this socket.

`sendMsg`: only established connections have the `send_message` handler
registered, so an event from an unknown socket id is not processed at all. An
established connection without a resolved `userName` fails `message.save()`
(the schema requires `username`), and the catch emits 'Failed to send message';
otherwise the event runs `handleSendMessage`.

`disconnect`: `connectedUsers.delete(socket.userId)` and the socket is gone. -/
def step (verify : String → Option String) (lookupUser : String → Option (String × String))
    (st : SystemState) (e : SockEvent) : SystemState × List Delivery :=
  match e with
  | .connect token sid dbRecents =>
    match token with
    | none => (st, [])
    | some t =>
      match verify t with
      | none => (st, [])
      | some uid =>
        match lookupUser uid with
        | none => ({ st with conns := st.conns ++ [⟨uid, none, sid⟩] }, [])
        | some (nm, em) =>
          ({ st with
              conns := st.conns ++ [⟨uid, some nm, sid⟩]
              presence := mapSet st.presence uid ⟨sid, nm, em⟩ },
           [Delivery.toSocketList sid "recent_messages"
              ((dbRecents.map (fun m => anonymizeMessage m (some uid))).reverse)])
  | .sendMsg sid content newId now =>
    match st.conns.find? (fun c => c.socketId == sid) with
    | none => (st, [])
    | some c =>
      match c.userName with
      | none => (st, [Delivery.errToSocket sid "Failed to send message"])
      | some nm =>
        let o := handleSendMessage st.presence c.userId nm st.store newId now content
        ({ st with store := o.store },
         (match o.errorToSender with
          | some err => [Delivery.errToSocket sid err]
          | none => []) ++ o.deliveries)
  | .disconnect sid =>
    match st.conns.find? (fun c => c.socketId == sid) with
    | none => (st, [])
    | some c =>
      ({ st with
          presence := mapDelete st.presence c.userId
          conns := st.conns.filter (fun x => x.socketId != sid) }, [])

/-- Embedding of `GET /api/chat/users-online` in `backend/app.js`: the handler
body is `res.json({ count: 0, users: [] })` — it reads nothing from the server
state. -/
def usersOnlineHandler (_st : SystemState) : OnlineCountResponse :=
  { count := 0, users := [] }

/-- The local `anonymizedMessage` computed by the `new_message` handler in the
frontend `SocketContext.tsx`:
`{ ...message, username: 'Anonymous', isAnonymous: true, isOwnMessage: message.isOwnMessage || false }`. -/
def anonymizedStamp (message : WireMessage) : WireMessage :=
  { message with
      username := "Anonymous"
      isAnonymous := true
      isOwnMessage := message.isOwnMessage || false }

/-- Embedding of the `new_message` handler in the frontend `SocketContext.tsx`:
the incoming payload is re-stamped by `anonymizedStamp` and appended to the
message list only if no entry with the same `_id` is already present
(`prev.some(msg => msg._id === anonymizedMessage._id) ? prev : [...prev, anonymizedMessage]`). -/
def receiveNewMessage (prev : List WireMessage) (message : WireMessage) : List WireMessage :=
  let anonymizedMessage := anonymizedStamp message
  if prev.any (fun msg => msg.id == anonymizedMessage.id) then prev
  else prev ++ [anonymizedMessage]

/-!
Theorems settling the claims.
-/

/-- C1: for every stored chat message and every viewer identity (the author,
any other identity, or the null viewer), the anonymization transform produces
a wire message whose display name is the constant 'Anonymous'; the wire
message does not carry the author's real display name (the output is
unchanged when the stored `username` changes), and the author's identity
influences nothing but the boolean `isOwnMessage` flag (every other field of
the output is unchanged when the stored `userId` changes). -/
theorem anonymization_identity_free :
    ∀ (m : StoredMessage) (v : Option String),
      (anonymizeMessage m v).username = "Anonymous" ∧
      (∀ s : String, anonymizeMessage { m with username := s } v = anonymizeMessage m v) ∧
      (∀ u : String,
        (anonymizeMessage { m with userId := u } v).id = (anonymizeMessage m v).id ∧
        (anonymizeMessage { m with userId := u } v).content = (anonymizeMessage m v).content ∧
        (anonymizeMessage { m with userId := u } v).username = (anonymizeMessage m v).username ∧
        (anonymizeMessage { m with userId := u } v).timestamp = (anonymizeMessage m v).timestamp ∧
        (anonymizeMessage { m with userId := u } v).isAnonymous = (anonymizeMessage m v).isAnonymous) := by
  intro m v
  refine ⟨rfl, fun s => ?_, fun u => ⟨rfl, rfl, rfl, rfl, rfl⟩⟩
  cases v <;> rfl

/-- C3: `isOwnMessage` is `true` exactly when the viewer is the message's
author, `false` for every other non-null viewer, and `false` for the null
viewer; it is a `Bool`. -/
theorem isOwnMessage_iff_viewer_is_author :
    ∀ (m : StoredMessage) (v : String),
      (anonymizeMessage m (some m.userId)).isOwnMessage = true ∧
      (v ≠ m.userId → (anonymizeMessage m (some v)).isOwnMessage = false) ∧
      (anonymizeMessage m none).isOwnMessage = false := by
  intro m v
  refine ⟨by simp [anonymizeMessage], fun h => ?_, rfl⟩
  simp only [anonymizeMessage, beq_eq_false_iff_ne, ne_eq]
  exact fun heq => h heq.symm

/-- Sample stored message used by the witness of
`isOwnMessage_iff_viewer_is_author`. -/
def c3SampleMsg : StoredMessage :=
  { id := 1, content := "hello", userId := "u1", username := "Alice",
    isAnonymous := true, timestamp := 100, isDeleted := false }

/-- Witness: the self-flag theorem instantiated at a concrete message, its
author, a distinct concrete viewer, and the null viewer. -/
theorem isOwnMessage_iff_viewer_is_author_witness :
    (anonymizeMessage c3SampleMsg (some c3SampleMsg.userId)).isOwnMessage = true ∧
    (anonymizeMessage c3SampleMsg (some "u2")).isOwnMessage = false ∧
    (anonymizeMessage c3SampleMsg none).isOwnMessage = false := by
  obtain ⟨h1, h2, h3⟩ := isOwnMessage_iff_viewer_is_author c3SampleMsg "u2"
  exact ⟨h1, h2 (by decide), h3⟩

/-- Discriminator for the unconditional `io.emit` fallback broadcast. -/
def Delivery.isBroadcast : Delivery → Bool
  | Delivery.broadcast _ _ => true
  | _ => false

/-- C2: a valid inbound `send_message` event persists the message and delivers
it individually to every entry of the presence directory as
`anonymize(message, entry.identity)` — so each recipient's own-message flag is
computed relative to that recipient — followed by exactly one unconditional
fallback broadcast of `anonymize(message, null)`. -/
theorem send_message_fanout_and_fallback :
    ∀ (presence : Presence) (senderId senderName : String)
      (store : List StoredMessage) (newId now : Nat) (content : String),
      validateContent content = none →
      handleSendMessage presence senderId senderName store newId now content =
        { store := store ++ [mkMessage content senderId senderName newId now]
          deliveries :=
            presence.map (fun e =>
              Delivery.toSocket e.2.socketId "new_message"
                (anonymizeMessage (mkMessage content senderId senderName newId now) (some e.1))) ++
            [Delivery.broadcast "new_message"
              (anonymizeMessage (mkMessage content senderId senderName newId now) none)]
          errorToSender := none } ∧
      ((handleSendMessage presence senderId senderName store newId now content).deliveries.countP
        Delivery.isBroadcast) = 1 ∧
      (∀ e ∈ presence,
        (anonymizeMessage (mkMessage content senderId senderName newId now) (some e.1)).isOwnMessage
          = (senderId == e.1)) := by
  intro presence senderId senderName store newId now content h
  have heq : handleSendMessage presence senderId senderName store newId now content =
      { store := store ++ [mkMessage content senderId senderName newId now]
        deliveries :=
          presence.map (fun e =>
            Delivery.toSocket e.2.socketId "new_message"
              (anonymizeMessage (mkMessage content senderId senderName newId now) (some e.1))) ++
          [Delivery.broadcast "new_message"
            (anonymizeMessage (mkMessage content senderId senderName newId now) none)]
        errorToSender := none } := by
    simp only [handleSendMessage, h]
  refine ⟨heq, ?_, fun e _ => rfl⟩
  rw [heq]
  simp [List.countP_append, List.countP_map, List.countP_cons, Delivery.isBroadcast,
    Function.comp]

/-- Concrete presence directory used by the witness of
`send_message_fanout_and_fallback`. -/
def c2Presence : Presence :=
  [("u1", { socketId := "s1", name := "Alice", email := "a@x" }),
   ("u2", { socketId := "s2", name := "Bob", email := "b@x" })]

/-- Witness: the fan-out theorem instantiated at a concrete two-entry presence
directory and the valid content "hello". -/
theorem send_message_fanout_and_fallback_witness :
    validateContent "hello" = none ∧
    ((handleSendMessage c2Presence "u1" "Alice" [] 5 50 "hello").deliveries.countP
      Delivery.isBroadcast) = 1 :=
  ⟨by decide, (send_message_fanout_and_fallback c2Presence "u1" "Alice" [] 5 50 "hello"
      (by decide)).2.1⟩

/-- Content that is 501 characters long before trimming but 500 characters
long after trimming: 500 letters followed by one trailing space. -/
def overlongButTrimValid : String := String.mk (List.replicate 500 'a' ++ [' '])

/-- C4 counterexample: this content has trimmed length 500 (within the claimed
1–500-after-trim validity window), yet the handler rejects it — the length
check runs on the untrimmed content — with no persistence and no broadcast.
So acceptance is not determined by the content's length after trimming. -/
theorem content_validation_counterexample :
    (1 ≤ (jsTrim overlongButTrimValid).length ∧ (jsTrim overlongButTrimValid).length ≤ 500) ∧
    validateContent overlongButTrimValid = some "Message too long (max 500 characters)" ∧
    (handleSendMessage [] "u1" "Alice" [] 1 0 overlongButTrimValid).errorToSender =
      some "Message too long (max 500 characters)" ∧
    (handleSendMessage [] "u1" "Alice" [] 1 0 overlongButTrimValid).store = [] ∧
    (handleSendMessage [] "u1" "Alice" [] 1 0 overlongButTrimValid).deliveries = [] := by
  decide

/-- C4 amended: a chat-send is accepted iff the content is non-empty after
trimming AND its untrimmed length is at most 500; a rejected send emits the
error to the sender only and performs no persistence and no broadcast; content
of exactly 500 non-whitespace characters is accepted, 501 characters is
rejected as too long, and whitespace-only content is rejected as empty. -/
theorem content_validation_amended :
    ∀ content : String,
      (validateContent content = none ↔
        1 ≤ (jsTrim content).length ∧ content.length ≤ 500) ∧
      (∀ (presence : Presence) (senderId senderName : String) (store : List StoredMessage)
        (newId now : Nat) (err : String),
        validateContent content = some err →
        handleSendMessage presence senderId senderName store newId now content =
          { store := store, deliveries := [], errorToSender := some err }) ∧
      validateContent (String.mk (List.replicate 500 'a')) = none ∧
      validateContent (String.mk (List.replicate 501 'a')) =
        some "Message too long (max 500 characters)" ∧
      validateContent " " = some "Message cannot be empty" := by
  intro content
  refine ⟨?_, ?_, by decide, by decide, by decide⟩
  · simp only [validateContent]
    split_ifs with h1 h2
    · simp only [false_iff]
      rcases (by simpa using h1 : content = "" ∨ (jsTrim content).length = 0) with h | h
      · subst h
        intro hc
        simp [jsTrim] at hc
      · intro hc
        omega
    · simp only [false_iff]
      intro hc
      omega
    · simp only [true_iff]
      have h1' : ¬(content = "" ∨ (jsTrim content).length = 0) := by simpa using h1
      push_neg at h1'
      exact ⟨by omega, by omega⟩
  · intro presence senderId senderName store newId now err h
    simp only [handleSendMessage, h]

/-- Witness: the amended validation theorem instantiated at the whitespace-only
content " " (rejected, no side effects) and at the accepted content "ok". -/
theorem content_validation_amended_witness :
    validateContent " " = some "Message cannot be empty" ∧
    handleSendMessage [] "u1" "Alice" [] 1 0 " " =
      { store := [], deliveries := [], errorToSender := some "Message cannot be empty" } ∧
    (1 ≤ (jsTrim "ok").length ∧ "ok".length ≤ 500) :=
  ⟨by decide,
   (content_validation_amended " ").2.1 [] "u1" "Alice" [] 1 0 _ (by decide),
   (content_validation_amended "ok").1.mp (by decide)⟩

/-- Re-stamping a wire message never changes its id. -/
theorem anonymizedStamp_id (m : WireMessage) : (anonymizedStamp m).id = m.id := rfl

/-- A list whose ids are pairwise distinct holds at most one entry with any
given id. -/
theorem countP_id_le_one (l : List WireMessage) (v : Nat)
    (h : (l.map (fun x => x.id)).Nodup) : l.countP (fun x => x.id == v) ≤ 1 := by
  induction l with
  | nil => simp
  | cons x l ih =>
    simp only [List.map_cons, List.nodup_cons] at h
    obtain ⟨hx, hl⟩ := h
    rw [List.countP_cons]
    by_cases hxv : (x.id == v) = true
    · have hv : v = x.id := (beq_iff_eq.mp hxv).symm
      have hzero : l.countP (fun y => y.id == v) = 0 := by
        rw [List.countP_eq_zero]
        intro y hy hyv
        exact hx (hv ▸ List.mem_map.mpr ⟨y, hy, beq_iff_eq.mp hyv⟩)
      simp [hzero, hxv]
    · have hle := ih hl
      simp only [hxv]
      simp
      omega

/-- C5: a client receiving the same message id twice (targeted fan-out copy
then fallback broadcast copy) converges to exactly one rendered entry —
the second receipt is a no-op — and a message list with pairwise distinct ids
keeps its ids pairwise distinct and holds exactly one entry with the received
id after the handler runs. -/
theorem client_dedupes_by_id :
    ∀ (prev : List WireMessage) (m m2 : WireMessage),
      (m2.id = m.id →
        receiveNewMessage (receiveNewMessage prev m) m2 = receiveNewMessage prev m) ∧
      ((prev.map (fun x => x.id)).Nodup →
        ((receiveNewMessage prev m).map (fun x => x.id)).Nodup ∧
        ((receiveNewMessage prev m).countP (fun x => x.id == m.id)) = 1) := by
  intro prev m m2
  constructor
  · intro hid
    by_cases h : prev.any (fun msg => msg.id == m.id)
    · have h1 : receiveNewMessage prev m = prev := by
        simp [receiveNewMessage, anonymizedStamp_id, h]
      rw [h1]
      simp [receiveNewMessage, anonymizedStamp_id, hid, h]
    · have h1 : receiveNewMessage prev m = prev ++ [anonymizedStamp m] := by
        simp [receiveNewMessage, anonymizedStamp_id, h]
      rw [h1]
      simp [receiveNewMessage, anonymizedStamp_id, hid]
  · intro hnd
    by_cases h : prev.any (fun msg => msg.id == m.id)
    · have h1 : receiveNewMessage prev m = prev := by
        simp [receiveNewMessage, anonymizedStamp_id, h]
      rw [h1]
      refine ⟨hnd, ?_⟩
      have hle := countP_id_le_one prev m.id hnd
      have hpos : 0 < prev.countP (fun x => x.id == m.id) := by
        rw [List.countP_pos_iff]
        simpa using h
      omega
    · have h1 : receiveNewMessage prev m = prev ++ [anonymizedStamp m] := by
        simp [receiveNewMessage, anonymizedStamp_id, h]
      rw [h1]
      simp only [List.any_eq_true, not_exists, not_and] at h
      constructor
      · simp only [List.map_append, List.map_cons, List.map_nil]
        rw [List.nodup_append]
        refine ⟨hnd, by simp, ?_⟩
        intro a ha hb
        simp only [List.mem_map] at ha
        obtain ⟨x, hx, rfl⟩ := ha
        simp only [List.mem_singleton] at hb
        rw [anonymizedStamp_id] at hb
        have hne := h x hx
        simp [hb] at hne
      · rw [List.countP_append]
        have hz : prev.countP (fun x => x.id == m.id) = 0 := by
          rw [List.countP_eq_zero]
          intro y hy
          exact h y hy
        simp [hz, anonymizedStamp_id]

/-- Targeted fan-out copy of a message (own-message flag set for its author),
used by the witness of `client_dedupes_by_id`. -/
def c5Targeted : WireMessage :=
  { id := 5, content := "hello", username := "Anonymous", timestamp := 50,
    isAnonymous := true, isOwnMessage := true }

/-- Fallback broadcast copy of the same message (null viewer, flag false),
used by the witness of `client_dedupes_by_id`. -/
def c5Fallback : WireMessage :=
  { id := 5, content := "hello", username := "Anonymous", timestamp := 50,
    isAnonymous := true, isOwnMessage := false }

/-- Witness: receiving the targeted copy and then the fallback copy of the
same id from the empty list leaves exactly one entry with that id. -/
theorem client_dedupes_by_id_witness :
    receiveNewMessage (receiveNewMessage [] c5Targeted) c5Fallback =
      receiveNewMessage [] c5Targeted ∧
    ((receiveNewMessage [] c5Targeted).countP (fun x => x.id == c5Targeted.id)) = 1 :=
  ⟨(client_dedupes_by_id [] c5Targeted c5Fallback).1 (by decide),
   ((client_dedupes_by_id [] c5Targeted c5Fallback).2 (by decide)).2⟩

/-- A timestamp-descending permutation of three messages with strictly
increasing timestamps is uniquely determined. -/
theorem sorted_perm_three (A B C : StoredMessage)
    (hAB : A.timestamp < B.timestamp) (hBC : B.timestamp < C.timestamp)
    (l : List StoredMessage) (hp : l.Perm [A, B, C]) (hs : tsSortedDesc l) :
    l = [C, B, A] := by
  have hlen : l.length = 3 := by simpa using hp.length_eq
  have hndABC : ([A, B, C] : List StoredMessage).Nodup := by
    have h1 : A ≠ B := fun h => by rw [h] at hAB; omega
    have h2 : A ≠ C := fun h => by rw [h] at hAB; omega
    have h3 : B ≠ C := fun h => by rw [h] at hBC; omega
    simp [h1, h2, h3]
  have hnd : l.Nodup := hp.nodup_iff.mpr hndABC
  match l, hlen, hp, hs, hnd with
  | [x, y, z], _, hp, hs, hnd =>
    have hx : x ∈ [A, B, C] := hp.subset (by simp)
    have hy : y ∈ [A, B, C] := hp.subset (by simp)
    have hz : z ∈ [A, B, C] := hp.subset (by simp)
    simp only [List.mem_cons, List.mem_singleton, List.not_mem_nil, or_false] at hx hy hz
    obtain ⟨hts1, hts2⟩ : y.timestamp ≤ x.timestamp ∧ z.timestamp ≤ y.timestamp := by
      simpa [tsSortedDesc, List.chain'_cons] using hs
    have hxy : x ≠ y := by intro h; subst h; simp at hnd
    have hxz : x ≠ z := by intro h; subst h; simp at hnd
    have hyz : y ≠ z := by intro h; subst h; simp at hnd
    rcases hx with rfl | rfl | rfl <;> rcases hy with rfl | rfl | rfl <;>
      rcases hz with rfl | rfl | rfl <;>
      first
      | rfl
      | (exfalso; omega)
      | (exfalso; exact hxy rfl)
      | (exfalso; exact hxz rfl)
      | (exfalso; exact hyz rfl)

/-- First of two non-deleted messages sharing the creation timestamp 10. -/
def tieA : StoredMessage :=
  { id := 1, content := "first", userId := "u1", username := "Alice",
    isAnonymous := true, timestamp := 10, isDeleted := false }

/-- Second message, distinct id, same timestamp 10. -/
def tieB : StoredMessage :=
  { id := 2, content := "second", userId := "u2", username := "Bob",
    isAnonymous := true, timestamp := 10, isDeleted := false }

/-- C6 counterexample: the recent-messages query sorts on `timestamp` alone —
no id tie-break — so for two stored messages with equal timestamps BOTH
orders are possible outcomes of `recent(limit=2, offset=0)`; the returned
sequence is therefore not determined by a stable total order with ties broken
by id, contrary to the claim. -/
theorem recent_no_tiebreak_counterexample :
    RecentResult [tieA, tieB] 2 0 [tieA, tieB] ∧
    RecentResult [tieA, tieB] 2 0 [tieB, tieA] ∧
    ([tieA, tieB] : List StoredMessage) ≠ [tieB, tieA] := by
  refine ⟨⟨[tieA, tieB], ?_, ?_, rfl⟩, ⟨[tieB, tieA], ?_, ?_, rfl⟩, by decide⟩
  · decide
  · unfold tsSortedDesc
    simp [tieA, tieB, List.chain'_cons]
  · decide
  · unfold tsSortedDesc
    simp [tieA, tieB, List.chain'_cons]

/-- C6 amended: every possible result of the recent-messages query is ordered
most-recent-first by creation timestamp (ties in unspecified order, since the
query applies no id tie-break), and when messages A, B, C are inserted with
strictly increasing timestamps, querying `recent(limit=3, offset=0)` and
reversing necessarily yields [A, B, C]. -/
theorem recent_order_amended :
    ∀ (store : List StoredMessage) (limit skip : Nat)
      (A B C : StoredMessage) (result result3 : List StoredMessage),
      (RecentResult store limit skip result → tsSortedDesc result) ∧
      (A.isDeleted = false → B.isDeleted = false → C.isDeleted = false →
       A.timestamp < B.timestamp → B.timestamp < C.timestamp →
       RecentResult [A, B, C] 3 0 result3 → result3.reverse = [A, B, C]) := by
  intro store limit skip A B C result result3
  constructor
  · rintro ⟨sorted, _, hsorted, rfl⟩
    exact (hsorted.drop skip).take limit
  · intro hA hB hC hAB hBC hr
    obtain ⟨sorted, hperm, hsorted, hres⟩ := hr
    have hf : ([A, B, C] : List StoredMessage).filter (fun m => !m.isDeleted) = [A, B, C] := by
      simp [List.filter, hA, hB, hC]
    rw [hf] at hperm
    have hsval := sorted_perm_three A B C hAB hBC sorted hperm hsorted
    subst hsval
    subst hres
    simp

/-- Message inserted first (timestamp 10), for the C6 witness. -/
def c6A : StoredMessage :=
  { id := 1, content := "A", userId := "u1", username := "Alice",
    isAnonymous := true, timestamp := 10, isDeleted := false }

/-- Message inserted second (timestamp 20), for the C6 witness. -/
def c6B : StoredMessage :=
  { id := 2, content := "B", userId := "u2", username := "Bob",
    isAnonymous := true, timestamp := 20, isDeleted := false }

/-- Message inserted third (timestamp 30), for the C6 witness. -/
def c6C : StoredMessage :=
  { id := 3, content := "C", userId := "u3", username := "Cara",
    isAnonymous := true, timestamp := 30, isDeleted := false }

/-- Witness: with strictly increasing timestamps 10 < 20 < 30, the query
result is timestamp-sorted and reverses to the insertion order. -/
theorem recent_order_amended_witness :
    tsSortedDesc [c6C, c6B, c6A] ∧
    ([c6C, c6B, c6A] : List StoredMessage).reverse = [c6A, c6B, c6C] :=
  have hr : RecentResult [c6A, c6B, c6C] 3 0 [c6C, c6B, c6A] :=
    ⟨[c6C, c6B, c6A], by decide,
     by unfold tsSortedDesc; simp [c6A, c6B, c6C, List.chain'_cons], rfl⟩
  ⟨(recent_order_amended [c6A, c6B, c6C] 3 0 c6A c6B c6C [c6C, c6B, c6A] [c6C, c6B, c6A]).1 hr,
   (recent_order_amended [c6A, c6B, c6C] 3 0 c6A c6B c6C [c6C, c6B, c6A] [c6C, c6B, c6A]).2
     rfl rfl rfl (by decide) (by decide) hr⟩

/-- Two-entry presence directory used by the C7 evaluation. -/
def c7Presence : Presence :=
  [("u1", { socketId := "s1", name := "Alice", email := "alice@x" }),
   ("u2", { socketId := "s2", name := "Bob", email := "bob@x" })]

/-- C7 evaluation: an authenticated `POST /api/chat/send` with the valid
content "hello" persists the message and fans it out to both presence
entries (each with its own viewer flag), yet the HTTP response is the 500
error `'Failed to send message'` — never `{success: true, message}` — because
`messageData` is block-scoped to the `forEach` callback and unbound at the
`res.json` call. -/
theorem rest_send_bug_evaluated :
    restSend c7Presence "u1" "Alice" [] 7 100 "hello" =
      { store := [{ id := 7, content := "hello", userId := "u1", username := "Alice",
                    isAnonymous := true, timestamp := 100, isDeleted := false }]
        deliveries :=
          [Delivery.toSocket "s1" "new_message"
            { id := 7, content := "hello", username := "Anonymous", timestamp := 100,
              isAnonymous := true, isOwnMessage := true },
           Delivery.toSocket "s2" "new_message"
            { id := 7, content := "hello", username := "Anonymous", timestamp := 100,
              isAnonymous := true, isOwnMessage := false }]
        response := RestResponse.serverError "Failed to send message" } := by
  decide

/-- C10: every REST send whose content passes validation persists the message
and performs the full per-entry presence fan-out before the response is
produced, whatever the response status is — here the response is in fact an
error while the store has grown, so an error response from this endpoint does
not imply the store and the connected clients are unchanged. -/
theorem rest_send_side_effects_before_response :
    ∀ (presence : Presence) (userId userName : String) (store : List StoredMessage)
      (newId now : Nat) (content : String),
      validateContent content = none →
      restSend presence userId userName store newId now content =
        { store := store ++ [mkMessage content userId userName newId now]
          deliveries := presence.map (fun e =>
            Delivery.toSocket e.2.socketId "new_message"
              (anonymizeMessage (mkMessage content userId userName newId now) (some e.1)))
          response := RestResponse.serverError "Failed to send message" } ∧
      store ++ [mkMessage content userId userName newId now] ≠ store := by
  intro presence userId userName store newId now content h
  refine ⟨by simp only [restSend, h], ?_⟩
  intro heq
  have hlen := congrArg List.length heq
  simp at hlen

/-- Witness: the REST-send theorem at valid content "hi" — the store grows and
the response is nonetheless the 500 error. -/
theorem rest_send_side_effects_before_response_witness :
    validateContent "hi" = none ∧
    (restSend [] "u1" "Alice" [] 3 30 "hi").response =
      RestResponse.serverError "Failed to send message" :=
  ⟨by decide,
   by rw [(rest_send_side_effects_before_response [] "u1" "Alice" [] 3 30 "hi" (by decide)).1]⟩

/-- Every presence map holds its key right after a `Map.set` of that key. -/
theorem mapSet_haskey (m : Presence) (k : String) (v : UserInfo) :
    (mapSet m k v).any (fun e => e.1 == k) = true := by
  unfold mapSet
  by_cases h : m.any (fun e => e.1 == k)
  · simp only [h, if_true]
    rw [List.any_map]
    obtain ⟨e, he, hek⟩ := List.any_eq_true.mp h
    refine List.any_eq_true.mpr ⟨e, he, ?_⟩
    simp [Function.comp, hek]
  · simp [h]

/-- No presence map holds a key right after a `Map.delete` of that key. -/
theorem mapDelete_nokey (m : Presence) (k : String) :
    (mapDelete m k).any (fun e => e.1 == k) = false := by
  unfold mapDelete
  rw [List.any_eq_false]
  intro x hx
  have hne := (List.mem_filter.mp hx).2
  simp only [bne_iff_ne, ne_eq] at hne
  simp [hne]

/-- C8: after a successful connection handshake (credential verified and user
record resolved) the identity has a presence entry; after that connection's
disconnect event the identity has no entry; and a connection whose handshake
credential is absent or fails verification changes nothing and triggers no
emit, while a chat-send from a socket that was never established is not
processed at all (state unchanged, nothing persisted, nothing emitted). -/
theorem presence_lifecycle :
    ∀ (verify : String → Option String) (lookupUser : String → Option (String × String))
      (st : SystemState) (t sid uid nm em : String) (db : List StoredMessage)
      (content : String) (newId now : Nat),
      (verify t = some uid → lookupUser uid = some (nm, em) →
        ((step verify lookupUser st (SockEvent.connect (some t) sid db)).1.presence.any
          (fun e => e.1 == uid)) = true) ∧
      (∀ c, st.conns.find? (fun x => x.socketId == sid) = some c →
        ((step verify lookupUser st (SockEvent.disconnect sid)).1.presence.any
          (fun e => e.1 == c.userId)) = false) ∧
      (step verify lookupUser st (SockEvent.connect none sid db) = (st, [])) ∧
      (verify t = none →
        step verify lookupUser st (SockEvent.connect (some t) sid db) = (st, [])) ∧
      (st.conns.find? (fun x => x.socketId == sid) = none →
        step verify lookupUser st (SockEvent.sendMsg sid content newId now) = (st, [])) := by
  intro verify lookupUser st t sid uid nm em db content newId now
  refine ⟨fun hv hl => ?_, fun c hc => ?_, rfl, fun hv => ?_, fun hf => ?_⟩
  · simp only [step, hv, hl]
    exact mapSet_haskey _ _ _
  · simp only [step, hc]
    exact mapDelete_nokey _ _
  · simp only [step, hv]
  · simp only [step, hf]

/-- Credential verifier used by the C8 witness: only the token "tok" is valid
and resolves to identity "u1". -/
def c8Verify : String → Option String :=
  fun t => if t == "tok" then some "u1" else none

/-- User-record lookup used by the C8 witness. -/
def c8Lookup : String → Option (String × String) :=
  fun uid => if uid == "u1" then some ("Alice", "a@x") else none

/-- Server state with one established connection, for the C8 witness. -/
def c8State : SystemState :=
  { presence := [("u1", { socketId := "s1", name := "Alice", email := "a@x" })]
    store := []
    conns := [{ userId := "u1", userName := some "Alice", socketId := "s1" }] }

/-- Witness: the lifecycle theorem at a concrete verifier, lookup and state —
connect puts "u1" in the directory, disconnect removes it, a bad token changes
nothing, and a send from an unestablished socket changes nothing. -/
theorem presence_lifecycle_witness :
    ((step c8Verify c8Lookup c8State (SockEvent.connect (some "tok") "s1" [])).1.presence.any
      (fun e => e.1 == "u1")) = true ∧
    ((step c8Verify c8Lookup c8State (SockEvent.disconnect "s1")).1.presence.any
      (fun e => e.1 == "u1")) = false ∧
    step c8Verify c8Lookup c8State (SockEvent.connect (some "bad") "s2" []) = (c8State, []) ∧
    step c8Verify c8Lookup c8State (SockEvent.sendMsg "s9" "hello" 1 2) = (c8State, []) :=
  ⟨(presence_lifecycle c8Verify c8Lookup c8State "tok" "s1" "u1" "Alice" "a@x" [] "hello" 1 2).1
      (by decide) (by decide),
   (presence_lifecycle c8Verify c8Lookup c8State "tok" "s1" "u1" "Alice" "a@x" [] "hello" 1 2).2.1
      { userId := "u1", userName := some "Alice", socketId := "s1" } (by decide),
   (presence_lifecycle c8Verify c8Lookup c8State "bad" "s2" "u1" "Alice" "a@x" [] "hello" 1 2).2.2.2.1
      (by decide),
   (presence_lifecycle c8Verify c8Lookup c8State "tok" "s9" "u1" "Alice" "a@x" [] "hello" 1 2).2.2.2.2
      (by decide)⟩

/-- C9: the authenticated online-count endpoint returns `{count: 0, users: []}`
for every server state, so its output is identical across any two states —
presence never influences it. -/
theorem users_online_constant :
    ∀ s1 s2 : SystemState,
      usersOnlineHandler s1 = usersOnlineHandler s2 ∧
      usersOnlineHandler s1 = { count := 0, users := [] } :=
  fun _ _ => ⟨rfl, rfl⟩

end OvaCare
